import Mathlib

/-! # Verification of the go-sui-sdk transaction builder and execution pipeline

A shallow embedding of the Go sources of `pictorx/go-sui-sdk`:

* `sui.go` — ledger query helpers (`BatchGetObjects`, `BatchGetTransactions`),
  signature dispatch (`SignExecuteTransaction`), gas-budget estimation
  (`EstimateGasBudget`) and the two-pass pipeline (`SignExecuteTx`);
* `builder.go` — Go bindings for the WASM transaction-builder engine
  (`SplitCoins`, `MergeCoins`, `TransferObjects`, `MakeMoveVec`,
  `GasArgument`, `Free`, `Build`);
* `signer.go` — the signing handoff (`SignTransaction`).

Go `uint64` values are modelled as `Nat` with explicit `% 2 ^ 64` where the
source arithmetic can overflow; Go byte slices are `List Nat`; Go strings are
`String` or `List Char`; fallible Go functions returning `(T, error)` become
`Except String T` (or an explicit pair when the Go value part matters).
Remote calls are represented by the request value the code hands to the RPC
client: an `.error` produced before that point models "returned before any
network call".
-/

namespace GoSuiSdk

/-- The modulus of Go `uint64` arithmetic, `2 ^ 64`. -/
def U64 : Nat := 2 ^ 64

/-! ## Simulation responses and gas-budget estimation (`sui.go`) -/

/-- Execution status inside simulated transaction effects
(proto `ExecutionStatus`): a success flag and an error string. -/
structure ExecutionStatus where
  success : Bool
  error : String
deriving DecidableEq

/-- Gas usage reported by a simulation (proto `GasCostSummary`):
computation cost, storage cost and the storage rebate, all Go `uint64`. -/
structure GasUsed where
  computationCost : Nat
  storageCost : Nat
  storageRebate : Nat
deriving DecidableEq

/-- Simulated transaction effects: a status and the gas usage. -/
structure TransactionEffects where
  status : ExecutionStatus
  gasUsed : GasUsed
deriving DecidableEq

/-- A simulation response, reduced to the part `EstimateGasBudget` reads:
`resp.Transaction.GetEffects()`. -/
structure SimulateTransactionResponse where
  effects : TransactionEffects
deriving DecidableEq

/-- Embedding of `EstimateGasBudget` (`sui.go`).  The Go function returns a
`(uint64, error)` pair: `(0, err)` when the simulated effects report failure,
and `(finalBudget, nil)` on success, where
`estimatedCost = computationCost + storageCost` (uint64 addition),
`buffer = estimatedCost / 10` and `finalBudget = estimatedCost + buffer`.
The `error` component is modelled as `Option String`. -/
def EstimateGasBudget (resp : SimulateTransactionResponse) : Nat × Option String :=
  let effects := resp.effects
  if !effects.status.success then
    (0, some ("simulation failed: " ++ effects.status.error))
  else
    let gasUsed := effects.gasUsed
    let estimatedCost := (gasUsed.computationCost + gasUsed.storageCost) % U64
    let buffer := estimatedCost / 10
    let finalBudget := (estimatedCost + buffer) % U64
    (finalBudget, none)

/-- C1: for every simulation response whose effects report success (and whose
costs do not overflow uint64 arithmetic), `EstimateGasBudget` returns exactly
`(computationCost + storageCost) + (computationCost + storageCost) / 10`
with integer division, the storage rebate playing no role, and no error. -/
theorem c1_estimate_gas_budget_success (resp : SimulateTransactionResponse)
    (hs : resp.effects.status.success = true)
    (hov : resp.effects.gasUsed.computationCost + resp.effects.gasUsed.storageCost +
      (resp.effects.gasUsed.computationCost + resp.effects.gasUsed.storageCost) / 10 < U64) :
    EstimateGasBudget resp =
      (resp.effects.gasUsed.computationCost + resp.effects.gasUsed.storageCost +
        (resp.effects.gasUsed.computationCost + resp.effects.gasUsed.storageCost) / 10,
       none) := by
  have hcs : resp.effects.gasUsed.computationCost + resp.effects.gasUsed.storageCost < U64 := by
    omega
  simp only [EstimateGasBudget, hs, Bool.not_true, Bool.false_eq_true, if_false]
  rw [Nat.mod_eq_of_lt hcs, Nat.mod_eq_of_lt hov]

/-- C1 witness: with simulated `computationCost = 2,700,000` and
`storageCost = 270,000` the estimator returns budget `3,267,000` and no
error. -/
theorem c1_witness :
    EstimateGasBudget
      ⟨⟨⟨true, ""⟩, ⟨2700000, 270000, 999999⟩⟩⟩ = (3267000, none) := by
  rw [c1_estimate_gas_budget_success ⟨⟨⟨true, ""⟩, ⟨2700000, 270000, 999999⟩⟩⟩ rfl
    (by decide)]
  rfl

/-! ## Build finalisation (`builder.go`) -/

/-- Embedding of `binary.LittleEndian.Uint32` on four bytes, used by `Build` to read the
4-byte little-endian length prefix of the engine's result buffer. -/
def leUint32 (b0 b1 b2 b3 : Nat) : Nat :=
  b0 + b1 * 256 + b2 * 65536 + b3 * 16777216

/-- Embedding of `(*Builder).Build` (`builder.go`).  The engine call
`build_transaction` either signals failure with a zero buffer handle
(modelled `none`) or returns a framed buffer (modelled `some buf`, the bytes
readable at the returned handle): a 4-byte little-endian length prefix
followed by the payload.  `Build` reads the prefix, then reads that many
payload bytes (failing if the buffer is too short for either read) and
returns a copy of the payload only. -/
def Build : Option (List Nat) → Except String (List Nat)
  | none =>
    .error "build_transaction failed — ensure sender, gas object, gas_budget, gas_price and at least one command are set"
  | some buf =>
    match buf with
    | b0 :: b1 :: b2 :: b3 :: payload =>
      let dataLen := leUint32 b0 b1 b2 b3
      if payload.length < dataLen then
        .error "build_transaction: failed to read BCS payload"
      else
        .ok (payload.take dataLen)
    | _ => .error "build_transaction: failed to read length prefix"

/-- C2: `Build` returns an error (hence no bytes) exactly on the zero buffer
handle; on a returned buffer honouring the engine's framing contract it
returns exactly the payload bytes counted by the 4-byte little-endian length
prefix, the prefix itself excluded. -/
theorem c2_build_framing :
    (Build none =
      .error "build_transaction failed — ensure sender, gas object, gas_budget, gas_price and at least one command are set") ∧
    (∀ (b0 b1 b2 b3 : Nat) (payload : List Nat),
      leUint32 b0 b1 b2 b3 ≤ payload.length →
      Build (some (b0 :: b1 :: b2 :: b3 :: payload)) =
        .ok (payload.take (leUint32 b0 b1 b2 b3))) := by
  refine ⟨rfl, fun b0 b1 b2 b3 payload h => ?_⟩
  simp only [Build]
  rw [if_neg (by omega)]

/-- C2 witness: the failure branch, and a concrete well-formed buffer with
length prefix 2 and payload `[9, 8, 7]`, from which `Build` extracts exactly
`[9, 8]`. -/
theorem c2_witness :
    Build none =
      .error "build_transaction failed — ensure sender, gas object, gas_budget, gas_price and at least one command are set" ∧
    Build (some [2, 0, 0, 0, 9, 8, 7]) = .ok [9, 8] := by
  refine ⟨c2_build_framing.1, ?_⟩
  rw [show ([2, 0, 0, 0, 9, 8, 7] : List Nat) = 2 :: 0 :: 0 :: 0 :: [9, 8, 7] from rfl,
    c2_build_framing.2 2 0 0 0 [9, 8, 7] (by decide)]
  rfl

/-! ## Signature dispatch (`sui.go`) -/

/-- The signature schemes of the fixed flag table `schemeMap`. -/
inductive SignatureScheme
  | ed25519
  | secp256k1
  | secp256r1
deriving DecidableEq

/-- Embedding of the fixed `schemeMap` table (`sui.go`): flag byte `0x00` maps
to Ed25519, `0x01` to Secp256k1, `0x02` to Secp256r1; every other byte is
absent from the map. -/
def schemeMap (flag : Nat) : Option SignatureScheme :=
  if flag = 0 then some .ed25519
  else if flag = 1 then some .secp256k1
  else if flag = 2 then some .secp256r1
  else none

/-- The `ExecuteTransactionRequest` the code hands to the RPC client:
transaction bytes, the dispatched scheme, the 64 signature bytes and the
32 public-key bytes. -/
structure ExecuteTransactionRequest where
  txBytes : List Nat
  scheme : SignatureScheme
  signature : List Nat
  publicKey : List Nat
deriving DecidableEq

/-- Embedding of `SignExecuteTransaction` (`sui.go`).  A `.ok` result is the
request passed to `ExecuteTransaction` on the network; an `.error` is
returned before the RPC client is consulted.  The serialized signature must
be exactly 97 bytes: byte 0 is the scheme flag, bytes 1–64 the signature,
bytes 65–96 the public key. -/
def SignExecuteTransaction (txBytes signature : List Nat) :
    Except String ExecuteTransactionRequest :=
  if signature.length ≠ 97 then
    .error ("invalid signature length: expected 97, got " ++ toString signature.length)
  else
    let flagByte := signature.headD 0
    let sigBytes := (signature.drop 1).take 64
    let pubKeyBytes := (signature.drop 65).take 32
    match schemeMap flagByte with
    | none => .error ("Unsupported signature scheme flag: " ++ toString flagByte)
    | some scheme => .ok ⟨txBytes, scheme, sigBytes, pubKeyBytes⟩

/-- C3: a serialized signature whose length is not 97 is rejected before any
network call; a 97-byte signature is dispatched on its flag byte — `0x00` as
Ed25519, `0x01` as Secp256k1, `0x02` as Secp256r1, bytes 1–64 as signature
and bytes 65–96 as public key — and any other flag is rejected before any
network call. -/
theorem c3_signature_dispatch (txBytes sig : List Nat) :
    (sig.length ≠ 97 →
      SignExecuteTransaction txBytes sig =
        .error ("invalid signature length: expected 97, got " ++ toString sig.length)) ∧
    (sig.length = 97 →
      (sig.headD 0 = 0 →
        SignExecuteTransaction txBytes sig =
          .ok ⟨txBytes, .ed25519, (sig.drop 1).take 64, (sig.drop 65).take 32⟩) ∧
      (sig.headD 0 = 1 →
        SignExecuteTransaction txBytes sig =
          .ok ⟨txBytes, .secp256k1, (sig.drop 1).take 64, (sig.drop 65).take 32⟩) ∧
      (sig.headD 0 = 2 →
        SignExecuteTransaction txBytes sig =
          .ok ⟨txBytes, .secp256r1, (sig.drop 1).take 64, (sig.drop 65).take 32⟩) ∧
      (sig.headD 0 ≠ 0 → sig.headD 0 ≠ 1 → sig.headD 0 ≠ 2 →
        SignExecuteTransaction txBytes sig =
          .error ("Unsupported signature scheme flag: " ++ toString (sig.headD 0)))) := by
  constructor
  · intro h
    simp only [SignExecuteTransaction, if_pos h]
  · intro h
    have hlen : ¬sig.length ≠ 97 := by omega
    refine ⟨?_, ?_, ?_, ?_⟩
    · intro h0
      simp only [SignExecuteTransaction]
      rw [if_neg hlen, h0]
      rfl
    · intro h1
      simp only [SignExecuteTransaction]
      rw [if_neg hlen, h1]
      rfl
    · intro h2
      simp only [SignExecuteTransaction]
      rw [if_neg hlen, h2]
      rfl
    · intro h0 h1 h2
      simp only [SignExecuteTransaction]
      rw [if_neg hlen]
      simp only [schemeMap, if_neg h0, if_neg h1, if_neg h2]

/-- C3 witness: a 96-byte signature is rejected with the length error, and a
97-byte signature with flag `0x01` dispatches as Secp256k1 with the proper
slices. -/
theorem c3_witness :
    SignExecuteTransaction [7] (List.replicate 96 5) =
      .error "invalid signature length: expected 97, got 96" ∧
    SignExecuteTransaction [7] (1 :: List.replicate 96 5) =
      .ok ⟨[7], .secp256k1, List.replicate 64 5, List.replicate 32 5⟩ := by
  constructor
  · rw [(c3_signature_dispatch [7] (List.replicate 96 5)).1 (by decide)]
    rfl
  · rw [((c3_signature_dispatch [7] (1 :: List.replicate 96 5)).2 (by decide)).2.1 (by decide)]
    rfl

/-! ## Batch query guards (`sui.go`) -/

/-- One `GetObjectRequest` of a `BatchGetObjectsRequest`: an object id and an
optional version pin. -/
structure GetObjectRequest where
  objectId : String
  version : Option Nat
deriving DecidableEq

/-- Embedding of `BatchGetObjects` (`sui.go`).  The Go map argument is
modelled as an association list.  A `.ok` result is the request list handed
to the RPC client; the `.error` branch returns before the client is even
created. -/
def BatchGetObjects (objects : List (String × Option Nat)) :
    Except String (List GetObjectRequest) :=
  if objects.length = 0 then
    .error "objects cannot be zero"
  else
    .ok (objects.map fun ov => { objectId := ov.1, version := ov.2 })

/-- Embedding of `BatchGetTransactions` (`sui.go`).  A `.ok` result is the
digest list handed to the RPC client; the `.error` branch returns before the
client is created. -/
def BatchGetTransactions (digests : List String) : Except String (List String) :=
  if digests.length = 0 then
    .error "digests parameter cannot be empty"
  else
    .ok digests

/-- C10: `BatchGetObjects` on an empty map and `BatchGetTransactions` on an
empty slice both return an error with no request (so no RPC client and no
network call); on non-empty input the guard does not fire and the request
reaching the client is built from the whole input. -/
theorem c10_batch_empty_guards :
    BatchGetObjects [] = .error "objects cannot be zero" ∧
    BatchGetTransactions [] = .error "digests parameter cannot be empty" ∧
    (∀ objects : List (String × Option Nat), objects ≠ [] →
      BatchGetObjects objects =
        .ok (objects.map fun ov => { objectId := ov.1, version := ov.2 })) ∧
    (∀ digests : List String, digests ≠ [] →
      BatchGetTransactions digests = .ok digests) := by
  refine ⟨rfl, rfl, fun objects h => ?_, fun digests h => ?_⟩
  · simp only [BatchGetObjects]
    rw [if_neg (by simp only [List.length_eq_zero]; exact h)]
  · simp only [BatchGetTransactions]
    rw [if_neg (by simp only [List.length_eq_zero]; exact h)]

/-- C10 witness: the two empty-input errors, and singleton inputs passing the
guard. -/
theorem c10_witness :
    BatchGetObjects [] = .error "objects cannot be zero" ∧
    BatchGetTransactions [] = .error "digests parameter cannot be empty" ∧
    BatchGetObjects [("0xabc", some 3)] = .ok [{ objectId := "0xabc", version := some 3 }] ∧
    BatchGetTransactions ["Dg"] = .ok ["Dg"] := by
  refine ⟨c10_batch_empty_guards.1, c10_batch_empty_guards.2.1, ?_, ?_⟩
  · exact c10_batch_empty_guards.2.2.1 [("0xabc", some 3)] (by decide)
  · exact c10_batch_empty_guards.2.2.2 ["Dg"] (by decide)

/-! ## Command issuing (`builder.go`)

Each command wrapper validates locally, then delegates to the engine with one
exported-function call.  The engine is external: each wrapper takes the status
code the engine would answer with as an explicit parameter, and returns both
the Go result and the list of engine calls it issued (empty when the wrapper
returned before delegating, so no command was appended to the sequence). -/

/-- One delegation to the engine's command exports, with the logical
arguments the wrapper marshals for it. -/
inductive EngineCall
  | splitCoins (coinArgID : Nat) (amountArgIDs : List Nat)
  | mergeCoins (targetCoinArgID : Nat) (sourceArgIDs : List Nat)
  | transferObjects (objectArgIDs : List Nat) (recipientArgID : Nat)
  | makeMoveVec (typeTag : String) (elemArgIDs : List Nat)
deriving DecidableEq

/-- Embedding of `(*Builder).SplitCoins` (`builder.go`): an empty amounts
slice is rejected before the engine is consulted; otherwise the engine is
called once and a negative status code becomes an error. -/
def SplitCoins (engineCode : Int) (coinArgID : Nat) (amountArgIDs : List Nat) :
    Except String Nat × List EngineCall :=
  if amountArgIDs.length = 0 then
    (.error "SplitCoins: at least one amount required", [])
  else
    let calls := [EngineCall.splitCoins coinArgID amountArgIDs]
    if engineCode < 0 then
      (.error ("command_split_coins failed (code " ++ toString engineCode ++ ")"), calls)
    else
      (.ok engineCode.toNat, calls)

/-- Embedding of `(*Builder).MergeCoins` (`builder.go`): an empty sources
slice is rejected before the engine is consulted; otherwise the engine is
called once and a status code other than 1 becomes an error. -/
def MergeCoins (engineCode : Int) (targetCoinArgID : Nat) (sourceArgIDs : List Nat) :
    Except String Unit × List EngineCall :=
  if sourceArgIDs.length = 0 then
    (.error "MergeCoins: at least one source required", [])
  else
    let calls := [EngineCall.mergeCoins targetCoinArgID sourceArgIDs]
    if engineCode ≠ 1 then
      (.error ("command_merge_coins failed (code " ++ toString engineCode ++ ")"), calls)
    else
      (.ok (), calls)

/-- Embedding of `(*Builder).TransferObjects` (`builder.go`): an empty
objects slice is rejected before the engine is consulted; otherwise the
engine is called once and a status code other than 1 becomes an error. -/
def TransferObjects (engineCode : Int) (objectArgIDs : List Nat) (recipientArgID : Nat) :
    Except String Unit × List EngineCall :=
  if objectArgIDs.length = 0 then
    (.error "TransferObjects: at least one object required", [])
  else
    let calls := [EngineCall.transferObjects objectArgIDs recipientArgID]
    if engineCode ≠ 1 then
      (.error ("command_transfer_objects failed (code " ++ toString engineCode ++ ")"), calls)
    else
      (.ok (), calls)

/-- Embedding of `(*Builder).MakeMoveVec` (`builder.go`): the wrapper
performs no emptiness validation — it always marshals the type tag and the
element list and calls the engine once; a negative status code becomes an
error. -/
def MakeMoveVec (engineCode : Int) (typeTag : String) (elemArgIDs : List Nat) :
    Except String Nat × List EngineCall :=
  let calls := [EngineCall.makeMoveVec typeTag elemArgIDs]
  if engineCode < 0 then
    (.error ("command_make_move_vec failed (code " ++ toString engineCode ++ ")"), calls)
  else
    (.ok engineCode.toNat, calls)

/-- C5: `SplitCoins` with an empty amounts slice, `MergeCoins` with an empty
sources slice, and `TransferObjects` with an empty objects slice each return
a validation error before delegating to the engine — whatever the engine
would have answered, no engine call is issued, so no command is appended. -/
theorem c5_empty_slice_validation :
    ∀ (engineCode : Int) (coinArgID targetCoinArgID recipientArgID : Nat),
      SplitCoins engineCode coinArgID [] =
        (.error "SplitCoins: at least one amount required", []) ∧
      MergeCoins engineCode targetCoinArgID [] =
        (.error "MergeCoins: at least one source required", []) ∧
      TransferObjects engineCode [] recipientArgID =
        (.error "TransferObjects: at least one object required", []) := by
  intro engineCode coinArgID targetCoinArgID recipientArgID
  exact ⟨rfl, rfl, rfl⟩

/-- C6 counterexample: `MakeMoveVec` with an empty elements slice does NOT
fail with a validation error before delegating — with engine status 0 it
issues one engine call carrying the empty element list and returns `.ok 0`. -/
theorem c6_counterexample :
    MakeMoveVec 0 "" [] = (.ok 0, [EngineCall.makeMoveVec "" []]) := by
  rfl

/-- C6 amended: `MakeMoveVec` performs no empty-elements validation.  For
every elements slice — the empty one included — it delegates exactly one
command to the engine and returns the engine's verdict: the result ID on a
non-negative status code, an engine-failure error on a negative one; it
never returns a validation error. -/
theorem c6_make_move_vec_no_validation (engineCode : Int) (typeTag : String)
    (elemArgIDs : List Nat) :
    (MakeMoveVec engineCode typeTag elemArgIDs).2 =
      [EngineCall.makeMoveVec typeTag elemArgIDs] ∧
    (0 ≤ engineCode →
      (MakeMoveVec engineCode typeTag elemArgIDs).1 = .ok engineCode.toNat) ∧
    (engineCode < 0 →
      (MakeMoveVec engineCode typeTag elemArgIDs).1 =
        .error ("command_make_move_vec failed (code " ++ toString engineCode ++ ")")) := by
  refine ⟨?_, fun hpos => ?_, fun hneg => ?_⟩
  · simp only [MakeMoveVec]
    split <;> rfl
  · simp only [MakeMoveVec]
    rw [if_neg (by omega)]
  · simp only [MakeMoveVec]
    rw [if_pos hneg]

/-- C6 witness: at engine status `-1` and empty elements, the single engine
call still happens and the result is the engine-failure error, not a
validation error. -/
theorem c6_witness :
    (MakeMoveVec (-1) "0x2::sui::SUI" []).2 =
      [EngineCall.makeMoveVec "0x2::sui::SUI" []] ∧
    (MakeMoveVec (-1) "0x2::sui::SUI" []).1 =
      .error "command_make_move_vec failed (code -1)" := by
  refine ⟨(c6_make_move_vec_no_validation (-1) "0x2::sui::SUI" []).1, ?_⟩
  rw [(c6_make_move_vec_no_validation (-1) "0x2::sui::SUI" []).2.2 (by decide)]
  rfl

/-! ## Builder handle lifecycle (`builder.go`)

`Build` and `Free` are the only methods touching the engine handle `b.ptr`.
We model the handle as a `Nat` and record the engine calls the two methods
make: `Free` calls `free_builder` only when `ptr ≠ 0` and then clears the
pointer; `Build` calls `build_transaction` with the current pointer and
clears it unconditionally. -/

/-- An engine call made by `Free` or `Build`, with the handle passed. -/
inductive LifecycleEvent
  | freeBuilder (ptr : Nat)
  | buildTransaction (ptr : Nat)
deriving DecidableEq

/-- Embedding of `(*Builder).Free` (`builder.go`): when the handle is
non-zero, call `free_builder` and zero the handle; otherwise do nothing. -/
def freeStep (ptr : Nat) : Nat × List LifecycleEvent :=
  if ptr ≠ 0 then (0, [.freeBuilder ptr]) else (ptr, [])

/-- The handle discipline of `(*Builder).Build` (`builder.go`): call
`build_transaction` with the current handle and zero the handle regardless
of the outcome (`b.ptr = 0 // builder is consumed regardless`). -/
def buildStep (ptr : Nat) : Nat × List LifecycleEvent :=
  (0, [.buildTransaction ptr])

/-- A caller-chosen sequence of `Build` and `Free` invocations. -/
inductive BuilderOp
  | build
  | free
deriving DecidableEq

/-- Run a sequence of `Build`/`Free` invocations against a builder whose
handle is `ptr`, collecting every engine call made. -/
def runOps : Nat → List BuilderOp → List LifecycleEvent
  | _, [] => []
  | ptr, .build :: ops => (buildStep ptr).2 ++ runOps (buildStep ptr).1 ops
  | ptr, .free :: ops => (freeStep ptr).2 ++ runOps (freeStep ptr).1 ops

/-- Whether a lifecycle event is a `free_builder` call. -/
def isFreeEvent : LifecycleEvent → Bool
  | .freeBuilder _ => true
  | .buildTransaction _ => false

/-- Number of `free_builder` calls in an event trace. -/
def countFree (events : List LifecycleEvent) : Nat :=
  (events.filter isFreeEvent).length

/-- Computes `true` when no `free_builder` call appears after any `build_transaction`
call in the trace. -/
def noFreeAfterBuild : List LifecycleEvent → Bool
  | [] => true
  | .freeBuilder _ :: rest => noFreeAfterBuild rest
  | .buildTransaction _ :: rest =>
      rest.all (fun e => !isFreeEvent e) && noFreeAfterBuild rest

/-- Once the handle is zero, no later operation can reach `free_builder`. -/
theorem runOps_zero_no_free (ops : List BuilderOp) :
    (runOps 0 ops).all (fun e => !isFreeEvent e) = true := by
  induction ops with
  | nil => rfl
  | cons op ops ih =>
    cases op with
    | build =>
      simp only [runOps, buildStep, List.singleton_append, List.all_cons,
        List.nil_append]
      rw [ih]
      rfl
    | free =>
      simp only [runOps, freeStep, ne_eq, not_true_eq_false, if_false,
        List.nil_append]
      exact ih

/-- A trace from a zero handle contains no `free_builder` call at all. -/
theorem runOps_zero_countFree (ops : List BuilderOp) :
    countFree (runOps 0 ops) = 0 := by
  have h := runOps_zero_no_free ops
  simp only [countFree, List.length_eq_zero, List.filter_eq_nil_iff]
  intro e he
  have := List.all_eq_true.mp h e he
  simpa using this

/-- No trace places a `free_builder` call after a `build_transaction` call. -/
theorem runOps_noFreeAfterBuild (ops : List BuilderOp) (ptr : Nat) :
    noFreeAfterBuild (runOps ptr ops) = true := by
  induction ops generalizing ptr with
  | nil => rfl
  | cons op ops ih =>
    cases op with
    | build =>
      simp only [runOps, buildStep, List.singleton_append, noFreeAfterBuild,
        List.append_eq, List.nil_append]
      rw [runOps_zero_no_free ops, ih 0]
      rfl
    | free =>
      by_cases h : ptr = 0
      · subst h
        simp only [runOps, freeStep, ne_eq, not_true_eq_false, if_false,
          List.nil_append]
        exact ih 0
      · simp only [runOps, freeStep, ne_eq, h, not_false_eq_true, if_true,
          List.singleton_append, noFreeAfterBuild]
        exact ih 0

/-- C7: across any sequence of `Build` and `Free` invocations on one builder,
`free_builder` is invoked at most once and never after `build_transaction`;
a `Free` immediately following a `Build` performs no engine release (the
handle was cleared), and `Free` is idempotent. -/
theorem c7_handle_lifecycle (ptr : Nat) (ops : List BuilderOp) :
    countFree (runOps ptr ops) ≤ 1 ∧
    noFreeAfterBuild (runOps ptr ops) = true ∧
    runOps ptr (.build :: .free :: ops) =
      .buildTransaction ptr :: runOps 0 ops ∧
    runOps ptr (.free :: .free :: ops) = runOps ptr (.free :: ops) := by
  refine ⟨?_, runOps_noFreeAfterBuild ops ptr, ?_, ?_⟩
  · cases ops with
    | nil => cases ptr <;> simp [runOps, countFree]
    | cons op ops =>
      cases op with
      | build =>
        simp only [runOps, buildStep, List.singleton_append, countFree,
          List.filter_cons, isFreeEvent]
        have := runOps_zero_countFree ops
        simp only [countFree] at this
        simp [this]
      | free =>
        by_cases h : ptr = 0
        · subst h
          have := runOps_zero_countFree (BuilderOp.free :: ops)
          omega
        · simp only [runOps, freeStep, ne_eq, h, not_false_eq_true, if_true,
            List.singleton_append, countFree, List.filter_cons, isFreeEvent,
            if_pos rfl, List.length_cons]
          have := runOps_zero_countFree ops
          simp only [countFree] at this
          simp [this]
  · simp only [runOps, buildStep, freeStep, ne_eq, not_true_eq_false, if_false,
      List.singleton_append, List.nil_append]
  · by_cases h : ptr = 0
    · subst h
      simp [runOps, freeStep]
    · simp [runOps, freeStep, h]

/-! ## Gas argument (`builder.go` + engine argument table)

`(*Builder).GasArgument` forwards to the engine export `gas_argument` with
the builder's handle.  The engine itself (the WASM transaction builder) is
not part of the Go sources, so its argument table is modelled from the
spec. -/

/-- An entry of the engine's argument table, from the spec's data model:
the gas-coin pseudo-input, an input (object reference or encoded pure
value, kept as raw bytes), a command result, or a nested result. -/
inductive Argument
  | gasCoin
  | input (data : List Nat)
  | result (cmdIndex : Nat)
  | nestedResult (cmdIndex : Nat) (subIndex : Nat)
deriving DecidableEq

/-- Index of the first `gasCoin` entry of an argument table, if any. -/
def gasCoinIndex : List Argument → Option Nat
  | [] => none
  | .gasCoin :: _ => some 0
  | _ :: rest => (gasCoinIndex rest).map (· + 1)

/-- Modelled from the spec: the engine export `gas_argument` is missing from
the sources (the WASM encoding engine is an external collaborator); per the
spec, `GasCoin` is "the implicit gas object pseudo-input (singleton per
builder)" and `gasArgument()` is "idempotent: repeated calls within one
builder return the same ID without allocating a new slot" — so the engine
returns the ID of the existing `gasCoin` slot when one is present and only
otherwise allocates it. -/
def gasArgumentEngine (table : List Argument) : Nat × List Argument :=
  match gasCoinIndex table with
  | some i => (i, table)
  | none => (table.length, table ++ [.gasCoin])

/-- Embedding of `(*Builder).GasArgument` (`builder.go`): a plain forward of
the engine's `gas_argument` answer for this builder's table. -/
def GasArgument (table : List Argument) : Nat × List Argument :=
  gasArgumentEngine table

/-- Appending a non-gas-coin entry leaves `gasCoinIndex` computing over the
prefix; appending `gasCoin` to a table without one finds it at the end. -/
theorem gasCoinIndex_append_gasCoin (table : List Argument)
    (h : gasCoinIndex table = none) :
    gasCoinIndex (table ++ [.gasCoin]) = some table.length := by
  induction table with
  | nil => rfl
  | cons a rest ih =>
    cases a
    case gasCoin => simp [gasCoinIndex] at h
    all_goals
      simp only [gasCoinIndex] at h
      have h2 : gasCoinIndex rest = none := by
        cases hr : gasCoinIndex rest
        · rfl
        · rw [hr] at h
          simp at h
      simp [List.cons_append, gasCoinIndex, ih h2]

/-- C8: `GasArgument` is idempotent — on any builder table, a second
consecutive call returns the identical argument ID and leaves the table of
the first call untouched (no new slot allocated). -/
theorem c8_gas_argument_idempotent (table : List Argument) :
    (GasArgument (GasArgument table).2).1 = (GasArgument table).1 ∧
    (GasArgument (GasArgument table).2).2 = (GasArgument table).2 := by
  simp only [GasArgument, gasArgumentEngine]
  cases h : gasCoinIndex table with
  | some i => simp [h]
  | none => simp [h, gasCoinIndex_append_gasCoin table h]

/-! ## Standard base64 (`encoding/base64` as used by `signer.go` and `sui.go`)

`base64.StdEncoding`: the standard (non-URL-safe) alphabet with `=` padding.
Encoding consumes bytes three at a time; decoding consumes characters four
at a time, honouring the padding of the final quantum. -/

/-- The standard base64 alphabet. -/
def b64Alphabet : List Char :=
  "ABCDEFGHIJKLMNOPQRSTUVWXYZabcdefghijklmnopqrstuvwxyz0123456789+/".toList

/-- The alphabet character of a six-bit group. -/
def charOfSixbit (n : Nat) : Char := b64Alphabet.getD n 'A'

/-- Position of a character in a character list, if present. -/
def lookupIdx (c : Char) : List Char → Option Nat
  | [] => none
  | d :: ds => if d = c then some 0 else (lookupIdx c ds).map (· + 1)

/-- The six-bit group of an alphabet character, if it is one. -/
def sixbitOfChar (c : Char) : Option Nat := lookupIdx c b64Alphabet

/-- Standard base64 encoding of a byte list, with `=` padding. -/
def b64encode : List Nat → List Char
  | [] => []
  | [a] => [charOfSixbit (a / 4), charOfSixbit (a % 4 * 16), '=', '=']
  | [a, b] => [charOfSixbit (a / 4), charOfSixbit (a % 4 * 16 + b / 16),
      charOfSixbit (b % 16 * 4), '=']
  | a :: b :: c :: rest =>
      charOfSixbit (a / 4) :: charOfSixbit (a % 4 * 16 + b / 16) ::
      charOfSixbit (b % 16 * 4 + c / 64) :: charOfSixbit (c % 64) :: b64encode rest

/-- Standard base64 decoding: four characters per quantum, padding only in
the final quantum; `none` on any malformed input. -/
def b64decode : List Char → Option (List Nat)
  | [] => some []
  | c1 :: c2 :: c3 :: c4 :: rest =>
    match sixbitOfChar c1, sixbitOfChar c2 with
    | some s1, some s2 =>
      if c3 = '=' then
        if c4 = '=' ∧ rest = [] then some [s1 * 4 + s2 / 16] else none
      else
        match sixbitOfChar c3 with
        | some s3 =>
          if c4 = '=' then
            if rest = [] then some [s1 * 4 + s2 / 16, s2 % 16 * 16 + s3 / 4]
            else none
          else
            match sixbitOfChar c4 with
            | some s4 =>
              (b64decode rest).map
                (fun tail => (s1 * 4 + s2 / 16) :: (s2 % 16 * 16 + s3 / 4) ::
                  (s3 % 4 * 64 + s4) :: tail)
            | none => none
        | none => none
    | _, _ => none
  | _ => none

/-- The map `sixbitOfChar` is a left inverse of `charOfSixbit` on six-bit groups. -/
theorem sixbit_left_inverse : ∀ n, n < 64 → sixbitOfChar (charOfSixbit n) = some n := by
  decide

/-- No alphabet character is the padding character. -/
theorem charOfSixbit_ne_pad : ∀ n, n < 64 → ¬charOfSixbit n = '=' := by
  decide

/-- Standard base64 decoding inverts standard base64 encoding on byte
lists. -/
theorem b64_roundtrip : ∀ (l : List Nat), (∀ x ∈ l, x < 256) →
    b64decode (b64encode l) = some l
  | [], _ => rfl
  | [a], h => by
    have ha : a < 256 := h a (by simp)
    simp only [b64encode, b64decode]
    rw [sixbit_left_inverse (a / 4) (by omega),
      sixbit_left_inverse (a % 4 * 16) (by omega)]
    simp only [Option.some.injEq, List.cons.injEq, and_true, if_pos rfl]
    simp
    omega
  | [a, b], h => by
    have ha : a < 256 := h a (by simp)
    have hb : b < 256 := h b (by simp)
    simp only [b64encode, b64decode]
    rw [sixbit_left_inverse (a / 4) (by omega),
      sixbit_left_inverse (a % 4 * 16 + b / 16) (by omega)]
    simp [sixbit_left_inverse (b % 16 * 4) (by omega),
      charOfSixbit_ne_pad (b % 16 * 4) (by omega)]
    omega
  | a :: b :: c :: rest, h => by
    have ha : a < 256 := h a (by simp)
    have hb : b < 256 := h b (by simp)
    have hc : c < 256 := h c (by simp)
    have ih := b64_roundtrip rest (fun x hx => h x (by simp [hx]))
    simp only [b64encode, b64decode]
    rw [sixbit_left_inverse (a / 4) (by omega),
      sixbit_left_inverse (a % 4 * 16 + b / 16) (by omega)]
    simp [sixbit_left_inverse (b % 16 * 4 + c / 64) (by omega),
      charOfSixbit_ne_pad (b % 16 * 4 + c / 64) (by omega),
      sixbit_left_inverse (c % 64) (by omega),
      charOfSixbit_ne_pad (c % 64) (by omega), ih]
    omega

/-! ## Signing handoff (`signer.go`) -/

/-- Embedding of `SignedTx` (`signer.go`): the base64-encoded BCS transaction and the
serialized signature, both transport strings (modelled as char lists). -/
structure SignedTx where
  txBytes : List Char
  signature : List Char
deriving DecidableEq

/-- Modelled from the spec: `TxnMetaData.SignSerializedSigWith` lives in the
external block-vision SDK, not in this repository.  Per the spec and the
step-by-step comment in `signer.go`, it leaves the transport `TxBytes`
unchanged and produces `Signature = base64(flag 0x00 ∥ sig[64] ∥
pubkey[32])`; the raw ed25519 signature and public-key bytes are taken as
parameters, the hashing and signing being opaque cryptography. -/
def SignSerializedSigWith (txBytes : List Char) (sigBytes pubKey : List Nat) :
    SignedTx :=
  { txBytes := txBytes, signature := b64encode (0 :: (sigBytes ++ pubKey)) }

/-- Embedding of `SignTransaction` (`signer.go`): wrap the raw BCS bytes as
standard base64 into the transaction metadata, then let the signer backend
produce the serialized signature. -/
def SignTransaction (rawBCS sigBytes pubKey : List Nat) : SignedTx :=
  SignSerializedSigWith (b64encode rawBCS) sigBytes pubKey

/-- C9: for every input byte slice, the `TxBytes` field of the `SignedTx`
returned by `SignTransaction` is the standard base64 encoding of the input,
and standard base64 decoding of it yields back exactly the input bytes. -/
theorem c9_sign_transaction_roundtrip (rawBCS sigBytes pubKey : List Nat)
    (h : ∀ x ∈ rawBCS, x < 256) :
    (SignTransaction rawBCS sigBytes pubKey).txBytes = b64encode rawBCS ∧
    b64decode (SignTransaction rawBCS sigBytes pubKey).txBytes = some rawBCS :=
  ⟨rfl, b64_roundtrip rawBCS h⟩

/-- C9 witness: signing the concrete bytes `[0, 255, 16]` produces a
`TxBytes` that decodes back to `[0, 255, 16]`. -/
theorem c9_witness :
    (SignTransaction [0, 255, 16] [] []).txBytes = b64encode [0, 255, 16] ∧
    b64decode (SignTransaction [0, 255, 16] [] []).txBytes = some [0, 255, 16] :=
  c9_sign_transaction_roundtrip [0, 255, 16] [] [] (by decide)

/-! ## The two-pass pipeline (`sui.go`, `(*SplitCoin).SignExecuteTx`)

The pipeline composes: first `buildTx` with the provisional budget, then
`SimulateTransaction`, then `EstimateGasBudget`, then a second `buildTx`
with the estimated budget, then `SignTransaction`, two base64 decodes, and
finally `SignExecuteTransaction`.  The collaborators are parameters; the
returned trace counts how many `buildTx`, sign and execute calls were
made. -/

/-- How many times the pipeline invoked each collaborator. -/
structure PipelineTrace where
  builds : Nat
  signCalls : Nat
  executeCalls : Nat
deriving DecidableEq

/-- Embedding of `(*SplitCoin).SignExecuteTx` (`sui.go`), with its
collaborators as parameters: `buildTx` builds bytes from the current gas
budget, `simulate` is the dry-run RPC, `signTx` the signer and `execute`
the final execution RPC (of abstract response type `R`).  Alongside the Go
result, the number of calls made to `buildTx`, `signTx` and `execute` is
returned. -/
def SignExecuteTx {R : Type} (buildTx : Nat → Except String (List Nat))
    (initialBudget : Nat)
    (simulate : List Nat → Except String SimulateTransactionResponse)
    (signTx : List Nat → Except String SignedTx)
    (execute : List Nat → List Nat → Except String R) :
    Except String R × PipelineTrace :=
  match buildTx initialBudget with
  | .error e => (.error e, ⟨1, 0, 0⟩)
  | .ok simBytes =>
    match simulate simBytes with
    | .error e => (.error e, ⟨1, 0, 0⟩)
    | .ok simResp =>
      match EstimateGasBudget simResp with
      | (_, some e) => (.error e, ⟨1, 0, 0⟩)
      | (optimalBudget, none) =>
        match buildTx optimalBudget with
        | .error e => (.error e, ⟨2, 0, 0⟩)
        | .ok execBytes =>
          match signTx execBytes with
          | .error e => (.error e, ⟨2, 1, 0⟩)
          | .ok signed =>
            match b64decode signed.txBytes with
            | none => (.error "illegal base64 data", ⟨2, 1, 0⟩)
            | some txBytesRaw =>
              match b64decode signed.signature with
              | none => (.error "illegal base64 data", ⟨2, 1, 0⟩)
              | some signatureRaw =>
                (execute txBytesRaw signatureRaw, ⟨2, 1, 1⟩)

/-- C4: when the first build and the simulation RPC succeed but the
simulated effects report failure, `EstimateGasBudget` answers budget 0 with
an error carrying the on-chain error string, and `SignExecuteTx` returns
exactly that error having invoked `buildTx` only once and the signer and
executor not at all. -/
theorem c4_simulation_failure_aborts {R : Type}
    (buildTx : Nat → Except String (List Nat)) (initialBudget : Nat)
    (simulate : List Nat → Except String SimulateTransactionResponse)
    (signTx : List Nat → Except String SignedTx)
    (execute : List Nat → List Nat → Except String R)
    (simBytes : List Nat) (simResp : SimulateTransactionResponse)
    (hbuild : buildTx initialBudget = .ok simBytes)
    (hsim : simulate simBytes = .ok simResp)
    (hfail : simResp.effects.status.success = false) :
    EstimateGasBudget simResp =
      (0, some ("simulation failed: " ++ simResp.effects.status.error)) ∧
    SignExecuteTx buildTx initialBudget simulate signTx execute =
      (.error ("simulation failed: " ++ simResp.effects.status.error),
       ⟨1, 0, 0⟩) := by
  have hest : EstimateGasBudget simResp =
      (0, some ("simulation failed: " ++ simResp.effects.status.error)) := by
    simp only [EstimateGasBudget, hfail, Bool.not_false, if_true]
  refine ⟨hest, ?_⟩
  simp only [SignExecuteTx, hbuild, hsim, hest]

/-- C4 witness: a concrete pipeline whose simulation reports the on-chain
failure `MoveAbort` stops after the single draft build with that error. -/
theorem c4_witness :
    EstimateGasBudget ⟨⟨⟨false, "MoveAbort"⟩, ⟨1, 2, 3⟩⟩⟩ =
      (0, some "simulation failed: MoveAbort") ∧
    SignExecuteTx (fun _ => .ok [4]) 100
        (fun _ => .ok ⟨⟨⟨false, "MoveAbort"⟩, ⟨1, 2, 3⟩⟩⟩)
        (fun _ => .error "signer unavailable")
        (fun _ _ => (.error "executor unavailable" : Except String Nat)) =
      (.error "simulation failed: MoveAbort", ⟨1, 0, 0⟩) :=
  c4_simulation_failure_aborts (fun _ => .ok [4]) 100
    (fun _ => .ok ⟨⟨⟨false, "MoveAbort"⟩, ⟨1, 2, 3⟩⟩⟩)
    (fun _ => .error "signer unavailable")
    (fun _ _ => (.error "executor unavailable" : Except String Nat))
    [4] ⟨⟨⟨false, "MoveAbort"⟩, ⟨1, 2, 3⟩⟩⟩ rfl rfl rfl

end GoSuiSdk
